import Mathlib

/-!
Verification development for the kitdbase mysql-query-builder repository
(src/lib/mysql.ts).  The TypeScript classes TableQuery and Columns are
shallowly embedded: the mutable builder state becomes an explicit record,
each chained method becomes a state transformer, SQL text is built with
the same concatenation steps as the source, and throwing methods return
Except.  JavaScript string values that may also be null or undefined are
modelled by the JSStr type; JavaScript numbers are modelled by Int
(no query in this development involves non-integral numbers or NaN).
-/

/-- A single quote character, written via its code point. -/
def sqk : String := Char.toString (Char.ofNat 39)

/-- Kernel-computable model of JavaScript String.prototype.startsWith. -/
def strStartsWith (s p : String) : Bool := p.data.isPrefixOf s.data

/-- Kernel-computable model of toUpperCase (ASCII, as used by the source). -/
def strToUpper (s : String) : String := String.mk (s.data.map Char.toUpper)

/-- A JavaScript value reaching the query builder: a string, a number, or
null (undefined entries of insert rows behave like null there and are
folded into this constructor). -/
inductive Value
  | str (s : String)
  | num (n : Int)
  | null
deriving DecidableEq

/-- Rendering of a condition value, after the source:
a string value is wrapped in single quotes, anything else is interpolated
as-is (a number prints in decimal, null prints as the text null). -/
def formatValue : Value → String
  | .str s => sqk ++ s ++ sqk
  | .num n => toString n
  | .null => "null"

/-- A JavaScript string-or-null-or-undefined, used for the defaultValue of a field descriptor
and for introspected column defaults; the source distinguishes null from
undefined (=== null tests), so the model does too. -/
inductive JSStr
  | undef
  | null
  | str (s : String)
deriving DecidableEq

/-- JavaScript truthiness of a JSStr: only a nonempty string is truthy. -/
def JSStr.truthy : JSStr → Bool
  | .str s => s ≠ ""
  | _ => false

/-- Template-literal interpolation of a JSStr. -/
def JSStr.text : JSStr → String
  | .str s => s
  | .null => "null"
  | .undef => "undefined"

/-- One WHERE condition, as pushed by the builder methods.  The source
stores a record with optional fields (column/operator/value/query), whose
reachable shapes are exactly these variants; the final argument of each
constructor is the `type` field (the combinator, AND or OR). -/
inductive Condition
  | simple (column operator : String) (value : Value) (type : String)
  | between (column : String) (value1 value2 : Value) (type : String)
  | inList (column : String) (values : List Value) (type : String)
  | isNull (column : String) (type : String)
  | isNotNull (column : String) (type : String)
  | group (query : String) (type : String)
deriving DecidableEq

/-- The combinator (`type` field) of a condition. -/
def Condition.type : Condition → String
  | .simple _ _ _ ty => ty
  | .between _ _ _ ty => ty
  | .inList _ _ ty => ty
  | .isNull _ ty => ty
  | .isNotNull _ ty => ty
  | .group _ ty => ty

/-- The rendered text of one condition without its combinator, following
the operator cases of TableQuery.buildConditions. -/
def condBody : Condition → String
  | .group q _ => "(" ++ q ++ ")"
  | .between col v1 v2 _ =>
      col ++ " BETWEEN " ++ formatValue v1 ++ " AND " ++ formatValue v2
  | .inList col vs _ =>
      col ++ " IN (" ++ String.intercalate ", " (vs.map formatValue) ++ ")"
  | .isNull col _ => col ++ " IS NULL"
  | .isNotNull col _ => col ++ " IS NOT NULL"
  | .simple col op v _ => col ++ " " ++ op ++ " " ++ formatValue v

/-- join with the empty separator, i.e. plain concatenation (the source
maps over the conditions and joins the pieces with an empty string). -/
def concatAll : List String → String
  | [] => ""
  | s :: rest => s ++ concatAll rest

/-- One mapped piece of buildConditions: the combinator prefix is empty at
index 0 and otherwise is the spaced `type` of the condition itself. -/
def condPiece (ic : Nat × Condition) : String :=
  (if ic.1 = 0 then "" else " " ++ ic.2.type ++ " ") ++ condBody ic.2

/-- TableQuery.buildConditions: map with index, join on empty string. -/
def buildConditions (conds : List Condition) : String :=
  concatAll ((conds.enum).map condPiece)

/-- An ORDER BY entry. -/
structure OrderBy where
  column : String
  direction : String
deriving DecidableEq

/-- The state of one TableQuery builder instance. -/
structure TableQuery where
  tableName : String
  fields : List String := []
  nextType : String := "AND"
  joins : List String := []
  query : String
  conditions : List Condition := []
  _distinct : Bool := false
  _orderBy : List OrderBy := []
  _groupBy : List String := []
  limitValue : Option Int := none
  pageValue : Option Int := none
deriving DecidableEq

/-- The TableQuery constructor. -/
def TableQuery.init (tableName : String) : TableQuery :=
  { tableName := tableName
    query := "SELECT * FROM `" ++ tableName ++ "`" }

/-- TableQuery.select: with a nonempty field list, replaces the base
clause, honouring the distinct flag; with an empty list, does nothing. -/
def TableQuery.select (t : TableQuery) (fields : List String) : TableQuery :=
  if fields.length > 0 then
    { t with query := "SELECT " ++ (if t._distinct then "DISTINCT " else "")
        ++ String.intercalate ", " fields ++ " FROM `" ++ t.tableName ++ "`" }
  else t

/-- TableQuery.where (spelled whereQ because where is a Lean keyword):
missing operator defaults to =, the pushed condition carries the pending
combinator, which is then reset to AND. -/
def TableQuery.whereQ (t : TableQuery) (column : String)
    (operator : Option String) (value : Value) : TableQuery :=
  let op := operator.getD "="
  { t with conditions := t.conditions ++ [.simple column op value t.nextType]
           nextType := "AND" }

/-- TableQuery.orWhere: always pushes with combinator OR and does not
touch the pending combinator. -/
def TableQuery.orWhere (t : TableQuery) (column : String)
    (operator : Option String) (value : Value) : TableQuery :=
  let op := operator.getD "="
  { t with conditions := t.conditions ++ [.simple column op value "OR"] }

/-- TableQuery.or: set the pending combinator to OR. -/
def TableQuery.or (t : TableQuery) : TableQuery := { t with nextType := "OR" }

/-- TableQuery.and: set the pending combinator to AND. -/
def TableQuery.and (t : TableQuery) : TableQuery := { t with nextType := "AND" }

/-- TableQuery.whereBetween: pushes only when both bounds are present. -/
def TableQuery.whereBetween (t : TableQuery) (column : String)
    (value1 value2 : Option Value) : TableQuery :=
  match value1, value2 with
  | some v1, some v2 =>
      { t with conditions := t.conditions ++ [.between column v1 v2 t.nextType]
               nextType := "AND" }
  | _, _ => t

/-- TableQuery.whereIn: pushes only when the value list is nonempty. -/
def TableQuery.whereIn (t : TableQuery) (column : String)
    (values : List Value) : TableQuery :=
  if values.length > 0 then
    { t with conditions := t.conditions ++ [.inList column values t.nextType]
             nextType := "AND" }
  else t

/-- TableQuery.whereNull. -/
def TableQuery.whereNull (t : TableQuery) (column : String) : TableQuery :=
  { t with conditions := t.conditions ++ [.isNull column t.nextType]
           nextType := "AND" }

/-- TableQuery.whereNotNull. -/
def TableQuery.whereNotNull (t : TableQuery) (column : String) : TableQuery :=
  { t with conditions := t.conditions ++ [.isNotNull column t.nextType]
           nextType := "AND" }

/-- TableQuery.whereGroup: runs the callback on a fresh builder for the
same table, compiles only its conditions, and pushes the fragment as a
group condition under the pending combinator. -/
def TableQuery.whereGroup (t : TableQuery)
    (callback : TableQuery → TableQuery) : TableQuery :=
  let groupQuery := callback (TableQuery.init t.tableName)
  { t with
      conditions :=
        t.conditions ++ [.group (buildConditions groupQuery.conditions) t.nextType]
      nextType := "AND" }

/-- TableQuery.join. -/
def TableQuery.join (t : TableQuery) (table column1 operator column2 : String) :
    TableQuery :=
  { t with joins := t.joins ++
      ["JOIN " ++ table ++ " ON " ++ column1 ++ " " ++ operator ++ " " ++ column2] }

/-- TableQuery.orderBy: validates the direction case-insensitively and
pushes the upper-cased spec; otherwise throws. -/
def TableQuery.orderBy (t : TableQuery) (column : String)
    (direction : String := "ASC") : Except String TableQuery :=
  if ["ASC", "DESC"].contains (strToUpper direction) then
    .ok { t with _orderBy := t._orderBy ++ [⟨column, strToUpper direction⟩] }
  else
    .error ("Invalid direction: " ++ direction ++ ". Use ASC or DESC.")

/-- TableQuery.groupBy. -/
def TableQuery.groupBy (t : TableQuery) (column : String) : TableQuery :=
  { t with _groupBy := t._groupBy ++ [column] }

/-- TableQuery.distinct: sets the flag and replaces a leading SELECT of
the current base clause by SELECT DISTINCT (the regex replace of the
source, anchored at the start, hence at most one replacement). -/
def TableQuery.distinct (t : TableQuery) : TableQuery :=
  { t with _distinct := true
           query := if strStartsWith t.query "SELECT "
                    then "SELECT DISTINCT " ++ t.query.drop 7
                    else t.query }

/-- TableQuery.count (note: the source omits the backticks around the
table name in this one method). -/
def TableQuery.count (t : TableQuery) (column : String := "*") : TableQuery :=
  { t with query := "SELECT COUNT(" ++ column ++ ") AS count FROM " ++ t.tableName }

/-- TableQuery.sum. -/
def TableQuery.sum (t : TableQuery) (column : String) : TableQuery :=
  { t with query := "SELECT SUM(" ++ column ++ ") AS sum FROM `" ++ t.tableName ++ "`" }

/-- TableQuery.avg. -/
def TableQuery.avg (t : TableQuery) (column : String) : TableQuery :=
  { t with query := "SELECT AVG(" ++ column ++ ") AS avg FROM `" ++ t.tableName ++ "`" }

/-- TableQuery.max. -/
def TableQuery.max (t : TableQuery) (column : String) : TableQuery :=
  { t with query := "SELECT MAX(" ++ column ++ ") AS max FROM `" ++ t.tableName ++ "`" }

/-- TableQuery.min. -/
def TableQuery.min (t : TableQuery) (column : String) : TableQuery :=
  { t with query := "SELECT MIN(" ++ column ++ ") AS min FROM `" ++ t.tableName ++ "`" }

/-- TableQuery.limit. -/
def TableQuery.limit (t : TableQuery) (number : Int) : TableQuery :=
  { t with limitValue := some number }

/-- TableQuery.page. -/
def TableQuery.page (t : TableQuery) (number : Int) : TableQuery :=
  { t with pageValue := some number }

/-- True when the stored base clause starts with one of the five
aggregate SELECT prefixes (the condition the source tests before
emitting ORDER BY). -/
def isAggregateBase (q : String) : Bool :=
  strStartsWith q "SELECT COUNT" || strStartsWith q "SELECT SUM"
    || strStartsWith q "SELECT AVG" || strStartsWith q "SELECT MAX"
    || strStartsWith q "SELECT MIN"

/-- The accumulation steps of TableQuery.buildQuery before the final
ORDER BY step: base clause, joins, WHERE, GROUP BY, LIMIT, OFFSET.
The OFFSET step follows the source exactly: it requires a truthy
(nonzero) limit and a set page, and derives (page - 1) * limit. -/
def buildQueryCore (t : TableQuery) (includeSelect : Bool) : String :=
  let query := if includeSelect then t.query else ""
  let query := if t.joins.length > 0
               then query ++ " " ++ String.intercalate " " t.joins
               else query
  let whereClauses := buildConditions t.conditions
  let query := if whereClauses.length > 0 then query ++ " WHERE " ++ whereClauses else query
  let query := if t._groupBy.length > 0
               then query ++ " GROUP BY " ++ String.intercalate ", " t._groupBy
               else query
  let query := match t.limitValue with
               | some n => query ++ " LIMIT " ++ toString n
               | none => query
  match t.limitValue, t.pageValue with
  | some n, some p =>
      if n ≠ 0 then query ++ " OFFSET " ++ toString ((p - 1) * n) else query
  | _, _ => query

/-- TableQuery.buildQuery: the accumulated clauses, then ORDER BY unless
the stored base clause is an aggregate SELECT. -/
def TableQuery.buildQuery (t : TableQuery) (includeSelect : Bool := true) : String :=
  let query := buildQueryCore t includeSelect
  if 0 < t._orderBy.length ∧ isAggregateBase t.query = false then
    query ++ " ORDER BY "
      ++ String.intercalate ", " (t._orderBy.map fun o => o.column ++ " " ++ o.direction)
  else query

example : buildConditions [] = "" := rfl
example :
    buildConditions
      [.simple "age" ">" (.num 25) "AND", .simple "name" "=" (.str "Jane") "OR"]
      = "age > 25 OR name = " ++ sqk ++ "Jane" ++ sqk := by decide
example :
    TableQuery.buildQuery ((TableQuery.init "t").whereIn "id" [.num 1, .num 3, .num 5])
      = "SELECT * FROM `t` WHERE id IN (1, 3, 5)" := by decide

/-- A foreign key reference of a field descriptor (spelled foreing in the
source). -/
structure Foreing where
  table : String
  column : String
deriving DecidableEq

/-- A DDL field descriptor (src/@types/Field.ts), with defaultValue kept
as a JSStr since the source tests it against null explicitly. -/
structure FieldDef where
  name : String
  type : String
  defaultValue : JSStr := .undef
  length : Option Int := none
  options : Option (List String) := none
  foreing : Option Foreing := none
deriving DecidableEq

/-- Introspected column metadata (one entry of Columns.get). -/
structure ColumnMeta where
  type : String
  defaultValue : JSStr
  key : String
  extra : String
deriving DecidableEq

/-- The PRIMARY KEY / AUTO_INCREMENT / UNIQUE suffixes, appended in this
fixed order when the options array is present. -/
def applyOptions (s : String) (options : Option (List String)) : String :=
  match options with
  | none => s
  | some opts =>
      let s := if opts.contains "primary" then s ++ " PRIMARY KEY" else s
      let s := if opts.contains "autoincrement" then s ++ " AUTO_INCREMENT" else s
      if opts.contains "unique" then s ++ " UNIQUE" else s

/-- options && options.includes(name). -/
def optHas (options : Option (List String)) (name : String) : Bool :=
  match options with
  | some opts => opts.contains name
  | none => false

/-- The name/type/length part of a column definition in TableQuery.create:
the length suffix is used when length is truthy and type is not the exact
lowercase string text. -/
def createBaseDef (field : FieldDef) : String :=
  match field.length with
  | some n =>
      if n ≠ 0 && field.type ≠ "text" then
        "`" ++ field.name ++ "` " ++ field.type ++ "(" ++ toString n ++ ")"
      else "`" ++ field.name ++ "` " ++ field.type
  | none => "`" ++ field.name ++ "` " ++ field.type

/-- The type(length) part used by Columns.add and Columns.edit: the
length suffix is used when length is truthy and type is not the exact
uppercase string TEXT. -/
def addFullType (field : FieldDef) : String :=
  match field.length with
  | some n =>
      if n ≠ 0 && field.type ≠ "TEXT" then
        field.type ++ "(" ++ toString n ++ ")"
      else field.type
  | none => field.type

/-- The default-value clause of TableQuery.create: the whole clause is
guarded by the truthiness of defaultValue; inside, the text family is
matched after upper-casing the type. -/
def createDefaultClause (ty : String) (defaultValue : JSStr) : String :=
  if defaultValue.truthy then
    if ["VARCHAR", "CHAR", "TEXT", "ENUM", "SET"].contains (strToUpper ty) then
      if defaultValue.truthy then " DEFAULT " ++ sqk ++ defaultValue.text ++ sqk
      else " DEFAULT NULL"
    else if defaultValue = .str "NONE" ∨ defaultValue = .null then ""
    else if defaultValue.truthy then " DEFAULT " ++ defaultValue.text
    else " DEFAULT NULL"
  else ""

/-- The inner default-value ternary shared verbatim by Columns.add and
Columns.edit: the text family is matched against the lowercase names
without normalising the given type. -/
def lowerDefaultTernary (ty : String) (defaultValue : JSStr) : String :=
  if ["varchar", "char", "text", "enum", "set"].contains ty then
    if defaultValue.truthy then " DEFAULT " ++ sqk ++ defaultValue.text ++ sqk
    else " DEFAULT NULL"
  else if defaultValue = .str "NONE" ∨ defaultValue = .null then ""
  else if defaultValue.truthy then " DEFAULT " ++ defaultValue.text
  else " DEFAULT NULL"

/-- The default-value clause of Columns.add, guarded by truthiness. -/
def addDefaultClause (ty : String) (defaultValue : JSStr) : String :=
  if defaultValue.truthy then lowerDefaultTernary ty defaultValue else ""

/-- The default-value clause of Columns.edit, guarded by the strict
inequality of the live default and the requested one. -/
def editDefaultClause (existingDefault : JSStr) (ty : String)
    (defaultValue : JSStr) : String :=
  if existingDefault ≠ defaultValue then lowerDefaultTernary ty defaultValue else ""

/-- One column definition of TableQuery.create; a field without a name or
a type throws. -/
def createFieldDefinition (field : FieldDef) : Except String String :=
  if field.name = "" ∨ field.type = "" then
    .error "Cada campo debe tener un nombre y un tipo."
  else
    let fieldDefinition := createBaseDef field
    let fieldDefinition := fieldDefinition
      ++ createDefaultClause field.type field.defaultValue
    let fieldDefinition := applyOptions fieldDefinition field.options
    let fieldDefinition := match field.foreing with
      | some fk => fieldDefinition ++ ", FOREIGN KEY (`" ++ field.name
          ++ "`) REFERENCES `" ++ fk.table ++ "`(`" ++ fk.column ++ "`)"
      | none => fieldDefinition
    .ok fieldDefinition

/-- The CREATE TABLE statement dispatched by TableQuery.create. -/
def createTableQuery (tableName : String) (fields : List FieldDef) :
    Except String String := do
  let defs ← fields.mapM createFieldDefinition
  pure ("CREATE TABLE IF NOT EXISTS `" ++ tableName ++ "` ("
    ++ String.intercalate ", " defs ++ ")")

/-- The ALTER TABLE ... ADD COLUMN statement Columns.add dispatches for a
field absent from the live columns. -/
def addColumnQuery (tableName : String) (field : FieldDef) : String :=
  let alterQuery := "ALTER TABLE `" ++ tableName ++ "` ADD COLUMN `"
    ++ field.name ++ "` " ++ addFullType field
  let alterQuery := alterQuery ++ addDefaultClause field.type field.defaultValue
  let alterQuery := applyOptions alterQuery field.options
  match field.foreing with
  | some fk => alterQuery ++ ", ADD FOREIGN KEY (`" ++ field.name
      ++ "`) REFERENCES `" ++ fk.table ++ "`(`" ++ fk.column ++ "`)"
  | none => alterQuery

/-- The attribute-level difference test of Columns.edit. -/
def editNeedsModify (existing : ColumnMeta) (field : FieldDef) : Bool :=
  existing.type ≠ addFullType field
    || existing.defaultValue ≠ field.defaultValue
    || (optHas field.options "autoincrement" && existing.extra ≠ "auto_increment")
    || (optHas field.options "unique" && existing.key ≠ "UNI")
    || (optHas field.options "primary" && existing.key ≠ "PRI")

/-- The ALTER TABLE ... MODIFY COLUMN statement Columns.edit dispatches
for a live column whose tracked attributes differ. -/
def editModifyQuery (tableName : String) (existing : ColumnMeta)
    (field : FieldDef) : String :=
  let modifyQuery := "ALTER TABLE `" ++ tableName ++ "` MODIFY COLUMN `"
    ++ field.name ++ "` " ++ addFullType field
  let modifyQuery := modifyQuery
    ++ editDefaultClause existing.defaultValue field.type field.defaultValue
  let modifyQuery := applyOptions modifyQuery field.options
  match field.foreing with
  | some fk => modifyQuery ++ ", ADD FOREIGN KEY (`" ++ field.name
      ++ "`) REFERENCES `" ++ fk.table ++ "`(`" ++ fk.column ++ "`)"
  | none => modifyQuery

/-- TableQuery.update, modelled as the statement it dispatches: an error
result means the call throws before anything reaches the executor, an ok
result is the single UPDATE statement sent to it.  The patch object is a
plain key-value object (the list of its entries); the source validates
exactly that shape before this point. -/
def TableQuery.update (t : TableQuery) (data : List (String × Value)) :
    Except String String :=
  let updates := String.intercalate ", "
    (data.map fun kv => kv.1 ++ " = " ++ formatValue kv.2)
  let whereClauses := buildConditions t.conditions
  if whereClauses.length = 0 then
    .error "Debe especificar al menos una condicion WHERE para realizar un update."
  else
    .ok ("UPDATE `" ++ t.tableName ++ "` SET " ++ updates ++ " WHERE " ++ whereClauses)

/-- TableQuery.delete, modelled like update. -/
def TableQuery.delete (t : TableQuery) : Except String String :=
  let whereClauses := buildConditions t.conditions
  if whereClauses.length = 0 then
    .error "Debe especificar al menos una condicion WHERE para realizar un delete."
  else
    .ok ("DELETE FROM `" ++ t.tableName ++ "` WHERE " ++ whereClauses)

/-- One row of an insert payload: a plain object as its entry list. -/
abbrev Row := List (String × Value)

/-- What the executor returns for one statement: the generated identifier
(insertId, absent for non-insert statements) and the result rows. -/
structure ExecResult where
  insertId : Option Int := none
  rows : List Row := []

/-- result.insertId || 0. -/
def idOrZero : Option Int → Int
  | some n => n
  | none => 0

/-- Value rendering inside an INSERT statement: null (or undefined)
becomes the keyword NULL, strings are quoted, numbers interpolate. -/
def insertFormat : Value → String
  | .null => "NULL"
  | .str s => sqk ++ s ++ sqk
  | .num n => toString n

/-- The INSERT statement built for one row. -/
def insertRowSQL (tableName : String) (row : Row) : String :=
  "INSERT INTO `" ++ tableName ++ "` ("
    ++ String.intercalate ", " (row.map fun kv => "`" ++ kv.1 ++ "`")
    ++ ") VALUES ("
    ++ String.intercalate ", " (row.map fun kv => insertFormat kv.2)
    ++ ")"

/-- An element of the payload array: a plain object, or something else
(which fails validation). -/
inductive InsertItem
  | obj (row : Row)
  | nonObject
deriving DecidableEq

/-- Whether an item passes the plain-object check. -/
def InsertItem.isObj : InsertItem → Bool
  | .obj _ => true
  | .nonObject => false

/-- Projection used after validation succeeded. -/
def InsertItem.asObj : InsertItem → Option Row
  | .obj r => some r
  | .nonObject => none

/-- The insert payload: either not an array at all, or an array of items. -/
inductive InsertInput
  | notArray
  | array (items : List InsertItem)

/-- The per-row loop of TableQuery.insert: for each row, build and
execute the INSERT, push an id-equality condition on the same builder,
execute the resulting lookup query, and collect its first row.  Returns
the final builder state, the trace of executed statements in order, and
the collected rows. -/
def insertLoop (exec : String → ExecResult) :
    TableQuery → List Row → TableQuery × List String × List (Option Row)
  | t, [] => (t, [], [])
  | t, row :: rest =>
      let sqlQuery := insertRowSQL t.tableName row
      let result := exec sqlQuery
      let t2 := TableQuery.whereQ t "id" (some "=") (.num (idOrZero result.insertId))
      let lookupQuery := TableQuery.buildQuery t2
      let lookupResult := exec lookupQuery
      let rec3 := insertLoop exec t2 rest
      (rec3.1, sqlQuery :: lookupQuery :: rec3.2.1, lookupResult.rows.head? :: rec3.2.2)

/-- TableQuery.insert: validates that the payload is an array of plain
objects before any statement is executed, then runs the per-row loop. -/
def TableQuery.insert (t : TableQuery) (exec : String → ExecResult)
    (data : InsertInput) :
    Except String (TableQuery × List String × List (Option Row)) :=
  match data with
  | .notArray =>
      .error "El metodo insert requiere un array de objetos con pares clave-valor."
  | .array items =>
      if items.all InsertItem.isObj then
        .ok (insertLoop exec t (items.filterMap InsertItem.asObj))
      else .error "El array debe contener solo objetos validos."

/-- The builder states on which the successive insert lookups run: each
one extends the previous by the id-equality condition of its row. -/
def lookupStates (exec : String → ExecResult) :
    TableQuery → List Row → List TableQuery
  | _, [] => []
  | t, row :: rest =>
      let result := exec (insertRowSQL t.tableName row)
      let t2 := TableQuery.whereQ t "id" (some "=") (.num (idOrZero result.insertId))
      t2 :: lookupStates exec t2 rest

/-! ### Helper lemmas -/

theorem concat_enumFrom_map (cs : List Condition) :
    ∀ n, n ≠ 0 →
      concatAll ((List.enumFrom n cs).map condPiece)
        = concatAll (cs.map fun d => (" " ++ Condition.type d ++ " ") ++ condBody d) := by
  induction cs with
  | nil => intro n _; rfl
  | cons d ds ih =>
      intro n hn
      simp only [List.enumFrom, List.map_cons, concatAll, condPiece, if_neg hn]
      rw [ih (n + 1) (Nat.succ_ne_zero n)]

theorem buildConditions_cons (c : Condition) (cs : List Condition) :
    buildConditions (c :: cs)
      = condBody c
        ++ concatAll (cs.map fun d => (" " ++ Condition.type d ++ " ") ++ condBody d) := by
  simp only [buildConditions, List.enum, List.enumFrom, List.map_cons, concatAll,
    condPiece, eq_self_iff_true, if_true, Nat.zero_add]
  rw [String.empty_append, concat_enumFrom_map cs 1 one_ne_zero]

theorem condBody_length_pos (c : Condition) : 0 < (condBody c).length := by
  cases c with
  | simple col op v ty =>
      simp only [condBody, String.length_append]
      have : 0 < (" " : String).length := by decide
      omega
  | between col v1 v2 ty =>
      simp only [condBody, String.length_append]
      have : 0 < (" BETWEEN " : String).length := by decide
      omega
  | inList col vs ty =>
      simp only [condBody, String.length_append]
      have : 0 < (" IN (" : String).length := by decide
      omega
  | isNull col ty =>
      simp only [condBody, String.length_append]
      have : 0 < (" IS NULL" : String).length := by decide
      omega
  | isNotNull col ty =>
      simp only [condBody, String.length_append]
      have : 0 < (" IS NOT NULL" : String).length := by decide
      omega
  | group q ty =>
      simp only [condBody, String.length_append]
      have : 0 < ("(" : String).length := by decide
      omega

theorem buildConditions_cons_length_pos (c : Condition) (cs : List Condition) :
    0 < (buildConditions (c :: cs)).length := by
  rw [buildConditions_cons, String.length_append]
  have := condBody_length_pos c
  omega

/-! ### Claims about the condition compiler and combinators -/

/-- Claim C5: buildConditions renders the first condition with no leading
combinator prefix, prefixes every later condition with its own spaced
combinator, renders a group condition as its inner fragment wrapped in
parentheses under the same prefix rule, and compiles the empty sequence
to the empty string. -/
theorem C5_condition_compilation (c : Condition) (cs : List Condition) (q ty : String) :
    buildConditions [] = ""
    ∧ buildConditions (c :: cs)
        = condBody c
          ++ concatAll (cs.map fun d => (" " ++ Condition.type d ++ " ") ++ condBody d)
    ∧ condBody (Condition.group q ty) = "(" ++ q ++ ")"
    ∧ Condition.type (Condition.group q ty) = ty :=
  ⟨rfl, buildConditions_cons c cs, rfl, rfl⟩

/-- Claim C6: where appends a condition carrying the pending combinator
(AND by default, set by and()/or()) and then resets the pending
combinator to AND; orWhere always appends an OR condition and leaves the
pending combinator unchanged. -/
theorem C6_pending_combinator (t : TableQuery) (col : String)
    (op : Option String) (v : Value) :
    (TableQuery.whereQ (TableQuery.or t) col op v).conditions
        = t.conditions ++ [.simple col (op.getD "=") v "OR"]
    ∧ (TableQuery.whereQ (TableQuery.or t) col op v).nextType = "AND"
    ∧ (TableQuery.whereQ (TableQuery.and t) col op v).conditions
        = t.conditions ++ [.simple col (op.getD "=") v "AND"]
    ∧ (TableQuery.whereQ t col op v).conditions
        = t.conditions ++ [.simple col (op.getD "=") v t.nextType]
    ∧ (TableQuery.whereQ t col op v).nextType = "AND"
    ∧ (TableQuery.orWhere t col op v).conditions
        = t.conditions ++ [.simple col (op.getD "=") v "OR"]
    ∧ (TableQuery.orWhere t col op v).nextType = t.nextType
    ∧ (TableQuery.and t).nextType = "AND"
    ∧ (TableQuery.or t).nextType = "OR" :=
  ⟨rfl, rfl, rfl, rfl, rfl, rfl, rfl, rfl, rfl⟩

/-- Claim C7: update (on a valid patch object) and delete throw when the
condition sequence compiles to an empty WHERE fragment, before any SQL
statement is dispatched (an error result carries no statement); with at
least one condition present no such error occurs and the single UPDATE
or DELETE statement is dispatched. -/
theorem C7_update_delete_guard (t : TableQuery) (data : List (String × Value)) :
    (buildConditions t.conditions = "" →
        TableQuery.update t data
          = .error "Debe especificar al menos una condicion WHERE para realizar un update."
        ∧ TableQuery.delete t
          = .error "Debe especificar al menos una condicion WHERE para realizar un delete.")
    ∧ (t.conditions ≠ [] →
        TableQuery.update t data
          = .ok ("UPDATE `" ++ t.tableName ++ "` SET "
              ++ String.intercalate ", " (data.map fun kv => kv.1 ++ " = " ++ formatValue kv.2)
              ++ " WHERE " ++ buildConditions t.conditions)
        ∧ TableQuery.delete t
          = .ok ("DELETE FROM `" ++ t.tableName ++ "` WHERE " ++ buildConditions t.conditions)) := by
  constructor
  · intro h
    constructor <;> simp [TableQuery.update, TableQuery.delete, h]
  · intro h
    obtain ⟨c, cs, hcc⟩ := List.exists_cons_of_ne_nil h
    have hpos := buildConditions_cons_length_pos c cs
    rw [← hcc] at hpos
    constructor <;>
      simp [TableQuery.update, TableQuery.delete, Nat.pos_iff_ne_zero.mp hpos]

/-- Witness for C7: a fresh builder has an empty fragment and update
throws; after one where condition, delete dispatches its statement. -/
theorem C7_update_delete_guard_witness :
    TableQuery.update (TableQuery.init "t") []
        = .error "Debe especificar al menos una condicion WHERE para realizar un update."
    ∧ TableQuery.delete ((TableQuery.init "t").whereQ "a" none (.num 1))
        = .ok ("DELETE FROM `"
            ++ ((TableQuery.init "t").whereQ "a" none (.num 1)).tableName
            ++ "` WHERE "
            ++ buildConditions ((TableQuery.init "t").whereQ "a" none (.num 1)).conditions) :=
  ⟨((C7_update_delete_guard (TableQuery.init "t") []).1 rfl).1,
   ((C7_update_delete_guard ((TableQuery.init "t").whereQ "a" none (.num 1)) []).2
      (by decide)).2⟩

theorem strStartsWith_append (p a b : String) (h : strStartsWith a p = true) :
    strStartsWith (a ++ b) p = true := by
  simp only [strStartsWith, List.isPrefixOf_iff_prefix, String.data_append] at h ⊢
  exact h.trans (List.prefix_append _ _)

/-! ### Claim C3 (distinct) -/

/-- Claim C3 claims distinct() is idempotent.  It is not: the anchored
regex replace matches the SELECT prefix of a clause that already reads
SELECT DISTINCT, so a second call injects a second DISTINCT token.  A
later select() with a nonempty column list rebuilds the clause from the
flag and restores a single DISTINCT, which is the evidently intended
behaviour; the double call is a slip in the source.  This theorem
evaluates the source model at the failing input. -/
theorem C3_distinct_not_idempotent :
    ((TableQuery.init "users").distinct.distinct).query
        = "SELECT DISTINCT DISTINCT * FROM `users`"
    ∧ (((TableQuery.init "users").distinct.distinct).select ["name"]).query
        = "SELECT DISTINCT name FROM `users`" := by
  constructor <;> decide

/-! ### Claim C8 (ORDER BY suppression under aggregation) -/

/-- Claim C8 as amended: the suppression of ORDER BY is keyed on the
stored base clause starting with one of the five aggregate SELECT
prefixes.  After count/sum/avg/max/min this always holds, so a genuine
aggregation mode suppresses every orderBy spec; when the base clause
does not carry an aggregate prefix, every registered order spec appears
in the ORDER BY clause in call order.  (A select() whose first column
text itself begins with an aggregate call also matches the prefix test
and suppresses ORDER BY even though no aggregate method was called; see
the counterexample.) -/
theorem C8_orderby_suppression (t : TableQuery) (col : String) :
    isAggregateBase ((TableQuery.count t col).query) = true
    ∧ isAggregateBase ((TableQuery.sum t col).query) = true
    ∧ isAggregateBase ((TableQuery.avg t col).query) = true
    ∧ isAggregateBase ((TableQuery.max t col).query) = true
    ∧ isAggregateBase ((TableQuery.min t col).query) = true
    ∧ (isAggregateBase t.query = true →
        TableQuery.buildQuery t = buildQueryCore t true)
    ∧ (isAggregateBase t.query = false →
        TableQuery.buildQuery t
          = (if 0 < t._orderBy.length then
               buildQueryCore t true ++ " ORDER BY "
                 ++ String.intercalate ", "
                     (t._orderBy.map fun o => o.column ++ " " ++ o.direction)
             else buildQueryCore t true)) := by
  refine ⟨?_, ?_, ?_, ?_, ?_, ?_, ?_⟩
  · have h := strStartsWith_append "SELECT COUNT"
      (("SELECT COUNT(" ++ col) ++ ") AS count FROM ") t.tableName
      (strStartsWith_append "SELECT COUNT" ("SELECT COUNT(" ++ col) ") AS count FROM "
        (strStartsWith_append "SELECT COUNT" "SELECT COUNT(" col (by decide)))
    simp [isAggregateBase, TableQuery.count, h]
  · have h := strStartsWith_append "SELECT SUM"
      ((("SELECT SUM(" ++ col) ++ ") AS sum FROM `") ++ t.tableName) "`"
      (strStartsWith_append "SELECT SUM"
        (("SELECT SUM(" ++ col) ++ ") AS sum FROM `") t.tableName
        (strStartsWith_append "SELECT SUM" ("SELECT SUM(" ++ col) ") AS sum FROM `"
          (strStartsWith_append "SELECT SUM" "SELECT SUM(" col (by decide))))
    simp [isAggregateBase, TableQuery.sum, h]
  · have h := strStartsWith_append "SELECT AVG"
      ((("SELECT AVG(" ++ col) ++ ") AS avg FROM `") ++ t.tableName) "`"
      (strStartsWith_append "SELECT AVG"
        (("SELECT AVG(" ++ col) ++ ") AS avg FROM `") t.tableName
        (strStartsWith_append "SELECT AVG" ("SELECT AVG(" ++ col) ") AS avg FROM `"
          (strStartsWith_append "SELECT AVG" "SELECT AVG(" col (by decide))))
    simp [isAggregateBase, TableQuery.avg, h]
  · have h := strStartsWith_append "SELECT MAX"
      ((("SELECT MAX(" ++ col) ++ ") AS max FROM `") ++ t.tableName) "`"
      (strStartsWith_append "SELECT MAX"
        (("SELECT MAX(" ++ col) ++ ") AS max FROM `") t.tableName
        (strStartsWith_append "SELECT MAX" ("SELECT MAX(" ++ col) ") AS max FROM `"
          (strStartsWith_append "SELECT MAX" "SELECT MAX(" col (by decide))))
    simp [isAggregateBase, TableQuery.max, h]
  · have h := strStartsWith_append "SELECT MIN"
      ((("SELECT MIN(" ++ col) ++ ") AS min FROM `") ++ t.tableName) "`"
      (strStartsWith_append "SELECT MIN"
        (("SELECT MIN(" ++ col) ++ ") AS min FROM `") t.tableName
        (strStartsWith_append "SELECT MIN" ("SELECT MIN(" ++ col) ") AS min FROM `"
          (strStartsWith_append "SELECT MIN" "SELECT MIN(" col (by decide))))
    simp [isAggregateBase, TableQuery.min, h]
  · intro h
    simp [TableQuery.buildQuery, h]
  · intro h
    simp [TableQuery.buildQuery, h]

/-- Witness for C8: a COUNT builder never gains an ORDER BY section, and
a plain builder falls into the explicit ORDER BY characterisation. -/
theorem C8_orderby_suppression_witness :
    TableQuery.buildQuery ((TableQuery.init "u").count "*")
        = buildQueryCore ((TableQuery.init "u").count "*") true
    ∧ TableQuery.buildQuery (TableQuery.init "u")
        = (if 0 < (TableQuery.init "u")._orderBy.length then
             buildQueryCore (TableQuery.init "u") true ++ " ORDER BY "
               ++ String.intercalate ", "
                   ((TableQuery.init "u")._orderBy.map fun o => o.column ++ " " ++ o.direction)
           else buildQueryCore (TableQuery.init "u") true) :=
  ⟨(C8_orderby_suppression ((TableQuery.init "u").count "*") "*").2.2.2.2.2.1 (by decide),
   (C8_orderby_suppression (TableQuery.init "u") "x").2.2.2.2.2.2 (by decide)⟩

/-- The state reached by select followed by orderBy only, on which the
original C8 fails: no aggregate method was ever called (the aggregation
mode is NONE), yet the base clause textually starts with SELECT COUNT. -/
def c8state : TableQuery :=
  match TableQuery.orderBy (TableQuery.select (TableQuery.init "t") ["COUNT(id)"])
      "age" "ASC" with
  | .ok s => s
  | .error _ => TableQuery.init "t"

/-- Counterexample to C8 as stated: the builder below was configured only
through select and orderBy, so its aggregation mode is NONE and one order
spec is registered, yet buildQuery emits no ORDER BY clause, because the
select text happens to start with SELECT COUNT. -/
theorem C8_counterexample :
    TableQuery.orderBy (TableQuery.select (TableQuery.init "t") ["COUNT(id)"])
        "age" "ASC" = .ok c8state
    ∧ c8state._orderBy = [⟨"age", "ASC"⟩]
    ∧ TableQuery.buildQuery c8state = "SELECT COUNT(id) FROM `t`" :=
  ⟨rfl, by decide, by decide⟩

/-! ### Claim C9 (LIMIT / OFFSET) -/

/-- Claim C9 as amended: buildQuery emits LIMIT n whenever limit(n) was
called; OFFSET (p-1)*n is emitted exactly when a page and a nonzero (not
necessarily positive) limit are set; a page without a limit emits
nothing. -/
theorem C9_limit_offset (tb : String) (n p : Int) :
    TableQuery.buildQuery ((TableQuery.init tb).limit n)
        = "SELECT * FROM `" ++ tb ++ "`" ++ " LIMIT " ++ toString n
    ∧ TableQuery.buildQuery (((TableQuery.init tb).limit n).page p)
        = (if n ≠ 0 then
             "SELECT * FROM `" ++ tb ++ "`" ++ " LIMIT " ++ toString n
               ++ " OFFSET " ++ toString ((p - 1) * n)
           else "SELECT * FROM `" ++ tb ++ "`" ++ " LIMIT " ++ toString n)
    ∧ TableQuery.buildQuery ((TableQuery.init tb).page p) = "SELECT * FROM `" ++ tb ++ "`" :=
  ⟨rfl, rfl, rfl⟩

/-- Counterexample to C9 as stated: OFFSET is also emitted for a negative
(hence non-positive) limit, because the source only tests truthiness of
the limit; and the scenario limit(10).page(2) is also evaluated. -/
theorem C9_counterexample :
    TableQuery.buildQuery (((TableQuery.init "t").limit (-5)).page 2)
        = "SELECT * FROM `t` LIMIT -5 OFFSET -5"
    ∧ TableQuery.buildQuery (((TableQuery.init "t").limit 10).page 2)
        = "SELECT * FROM `t` LIMIT 10 OFFSET 10" := by
  constructor <;> decide

/-! ### Claim C1 (default-value clauses) -/

/-- Counterexample to C1 as stated: a non-text field with an absent
defaultValue renders no DEFAULT clause at all in create (the claim says
it renders DEFAULT NULL), and Columns.add renders an uppercase VARCHAR
default unquoted because its text-family test is case-sensitive against
lowercase names (the claim says text types are matched case-insensitively
and quoted). -/
theorem C1_counterexample :
    createFieldDefinition { name := "a", type := "INT" } = .ok "`a` INT"
    ∧ addColumnQuery "t"
        { name := "e", type := "VARCHAR", defaultValue := .str "x", length := some 255 }
        = "ALTER TABLE `t` ADD COLUMN `e` VARCHAR(255) DEFAULT x" := by
  constructor <;> rfl

/-- Claim C1 as amended: in create and add, the whole DEFAULT clause is
guarded by the truthiness of defaultValue, so an absent, null or empty
default emits nothing (never DEFAULT NULL) and the inner null test is
dead; for a truthy default, a text-family type gets a quoted clause and
any other type gets nothing for the sentinel NONE and an unquoted clause
otherwise.  create matches the text family case-insensitively
(upper-casing the type), while add and edit match the given type
case-sensitively against the lowercase names.  Only edit, whose clause
is guarded by live-default difference instead of truthiness, can still
emit DEFAULT NULL or distinguish null from absent. -/
theorem C1_default_clause_rules (ty : String) (dv ex : JSStr) :
    createDefaultClause ty dv
        = (if dv.truthy then
             (if ["VARCHAR", "CHAR", "TEXT", "ENUM", "SET"].contains (strToUpper ty) then
                " DEFAULT " ++ sqk ++ dv.text ++ sqk
              else if dv = .str "NONE" then "" else " DEFAULT " ++ dv.text)
           else "")
    ∧ addDefaultClause ty dv
        = (if dv.truthy then
             (if ["varchar", "char", "text", "enum", "set"].contains ty then
                " DEFAULT " ++ sqk ++ dv.text ++ sqk
              else if dv = .str "NONE" then "" else " DEFAULT " ++ dv.text)
           else "")
    ∧ editDefaultClause ex ty dv
        = (if ex = dv then ""
           else if ["varchar", "char", "text", "enum", "set"].contains ty then
             (if dv.truthy then " DEFAULT " ++ sqk ++ dv.text ++ sqk else " DEFAULT NULL")
           else if dv = .str "NONE" ∨ dv = .null then ""
           else if dv.truthy then " DEFAULT " ++ dv.text else " DEFAULT NULL") := by
  refine ⟨?_, ?_, ?_⟩ <;>
    cases dv with
    | undef =>
        simp [createDefaultClause, addDefaultClause, editDefaultClause,
          lowerDefaultTernary, JSStr.truthy]
    | null =>
        simp [createDefaultClause, addDefaultClause, editDefaultClause,
          lowerDefaultTernary, JSStr.truthy]
    | str s =>
        by_cases hs : s = "" <;>
          simp [createDefaultClause, addDefaultClause, editDefaultClause,
            lowerDefaultTernary, JSStr.truthy, hs]

/-! ### Claim C4 (length suffix) -/

/-- Counterexample to C4 as stated: in create a VARCHAR with a length
does take a length suffix (the claim says text-like types never do), and
even an uppercase TEXT takes one because create compares against the
exact lowercase string text. -/
theorem C4_counterexample :
    createBaseDef { name := "e", type := "VARCHAR", length := some 255 }
        = "`e` VARCHAR(255)"
    ∧ createBaseDef { name := "b", type := "TEXT", length := some 10 }
        = "`b` TEXT(10)" := by
  constructor <;> decide

/-- Claim C4 as amended: the length suffix is omitted only when the type
is the exact lowercase string text in create, and only when it is the
exact uppercase string TEXT in Columns.add / Columns.edit; every other
type with a truthy length, text-family or not, is rendered as
name type(length). -/
theorem C4_length_suffix (nm ty : String) (n : Int) :
    (ty ≠ "text" → n ≠ 0 →
      createBaseDef { name := nm, type := ty, length := some n }
        = "`" ++ nm ++ "` " ++ ty ++ "(" ++ toString n ++ ")")
    ∧ createBaseDef { name := nm, type := "text", length := some n }
        = "`" ++ nm ++ "` " ++ "text"
    ∧ (ty ≠ "TEXT" → n ≠ 0 →
      addFullType { name := nm, type := ty, length := some n }
        = ty ++ "(" ++ toString n ++ ")")
    ∧ addFullType { name := nm, type := "TEXT", length := some n } = "TEXT"
    ∧ createBaseDef { name := nm, type := ty } = "`" ++ nm ++ "` " ++ ty := by
  refine ⟨?_, ?_, ?_, ?_, ?_⟩
  · intro h1 h2
    simp [createBaseDef, h1, h2]
  · simp [createBaseDef]
  · intro h1 h2
    simp [addFullType, h1, h2]
  · simp [addFullType]
  · rfl

/-- Witness for C4: a non-text INT column with length 11 takes the
suffix in both create and add. -/
theorem C4_length_suffix_witness :
    createBaseDef { name := "c", type := "INT", length := some 11 }
        = "`" ++ "c" ++ "` " ++ "INT" ++ "(" ++ toString (11 : Int) ++ ")"
    ∧ addFullType { name := "c", type := "INT", length := some 11 }
        = "INT" ++ "(" ++ toString (11 : Int) ++ ")" :=
  ⟨(C4_length_suffix "c" "INT" 11).1 (by decide) (by decide),
   (C4_length_suffix "c" "INT" 11).2.2.1 (by decide) (by decide)⟩

/-! ### Claims C2 and C10 (insert) -/

theorem all_isObj_map_obj (rows : List Row) :
    (rows.map InsertItem.obj).all InsertItem.isObj = true := by
  induction rows with
  | nil => rfl
  | cons r rs ih => simp [InsertItem.isObj, ih]

theorem all_isObj_with_nonObject (pre post : List InsertItem) :
    (pre ++ InsertItem.nonObject :: post).all InsertItem.isObj = false := by
  induction pre with
  | nil => simp [InsertItem.isObj]
  | cons a l ih => simp [List.all_cons, ih]

theorem filterMap_asObj_map_obj (rows : List Row) :
    (rows.map InsertItem.obj).filterMap InsertItem.asObj = rows := by
  induction rows with
  | nil => rfl
  | cons r rs ih => simp [List.filterMap_cons, InsertItem.asObj, ih]

theorem insertLoop_lengths (exec : String → ExecResult) (rows : List Row) :
    ∀ t : TableQuery,
      (insertLoop exec t rows).2.1.length = 2 * rows.length
      ∧ (insertLoop exec t rows).2.2.length = rows.length := by
  induction rows with
  | nil => intro t; exact ⟨rfl, rfl⟩
  | cons r rs ih =>
      intro t
      have h := ih (TableQuery.whereQ t "id" (some "=")
        (.num (idOrZero (exec (insertRowSQL t.tableName r)).insertId)))
      refine ⟨?_, ?_⟩
      · simp [insertLoop, h.1]
        omega
      · simp [insertLoop, h.2]

/-- Claim C2 as amended: insert rejects a non-array payload and a payload
containing a non-object before any statement is executed; an array of
plain objects (including the empty array, which the source accepts and
answers with an empty result, against the claimed non-emptiness
requirement) runs the per-row loop, whose trace holds exactly one INSERT
statement followed by one lookup query per row, the lookup being the
query of the same builder after pushing the id-equality condition for
the generated identifier (or 0), and whose results hold one re-read row
per input row. -/
theorem C2_insert_behaviour (t : TableQuery) (exec : String → ExecResult)
    (rows : List Row) (pre post : List InsertItem) :
    TableQuery.insert t exec InsertInput.notArray
        = .error "El metodo insert requiere un array de objetos con pares clave-valor."
    ∧ TableQuery.insert t exec (.array (pre ++ InsertItem.nonObject :: post))
        = .error "El array debe contener solo objetos validos."
    ∧ TableQuery.insert t exec (.array (rows.map InsertItem.obj))
        = .ok (insertLoop exec t rows)
    ∧ (insertLoop exec t rows).2.1.length = 2 * rows.length
    ∧ (insertLoop exec t rows).2.2.length = rows.length
    ∧ (∀ row rest,
        (insertLoop exec t (row :: rest)).2.1
          = insertRowSQL t.tableName row
            :: TableQuery.buildQuery (TableQuery.whereQ t "id" (some "=")
                 (.num (idOrZero (exec (insertRowSQL t.tableName row)).insertId)))
            :: (insertLoop exec
                 (TableQuery.whereQ t "id" (some "=")
                   (.num (idOrZero (exec (insertRowSQL t.tableName row)).insertId)))
                 rest).2.1) := by
  refine ⟨rfl, ?_, ?_, (insertLoop_lengths exec rows t).1,
    (insertLoop_lengths exec rows t).2, fun row rest => rfl⟩
  · simp only [TableQuery.insert, all_isObj_with_nonObject, Bool.false_eq_true,
      if_false]
  · simp only [TableQuery.insert, all_isObj_map_obj, filterMap_asObj_map_obj,
      eq_self_iff_true, if_true]

/-- Counterexample to C2 as stated: the empty list is not rejected; the
call validates, performs no statement at all, and returns an empty
result list. -/
theorem C2_counterexample :
    TableQuery.insert (TableQuery.init "users") (fun _ => { }) (.array [])
        = .ok (TableQuery.init "users", [], []) := rfl

theorem insertLoop_final_conditions (exec : String → ExecResult) (rows : List Row) :
    ∀ t : TableQuery,
      ((insertLoop exec t rows).1).conditions.length
        = t.conditions.length + rows.length := by
  induction rows with
  | nil => intro t; simp [insertLoop]
  | cons r rs ih =>
      intro t
      have h := ih (TableQuery.whereQ t "id" (some "=")
        (.num (idOrZero (exec (insertRowSQL t.tableName r)).insertId)))
      simp only [insertLoop] at h ⊢
      rw [h]
      simp [TableQuery.whereQ]
      omega

theorem lookupStates_spec (exec : String → ExecResult) (rows : List Row) :
    ∀ (t : TableQuery) (i : Nat) (s : TableQuery),
      (lookupStates exec t rows)[i]? = some s →
        s.conditions.length = t.conditions.length + (i + 1)
        ∧ ((insertLoop exec t rows).2.1)[2 * i + 1]? = some (TableQuery.buildQuery s)
        ∧ (∃ v ty, s.conditions.getLast? = some (.simple "id" "=" (.num v) ty)) := by
  induction rows with
  | nil => intro t i s h; simp [lookupStates] at h
  | cons r rs ih =>
      intro t i s h
      simp only [lookupStates] at h
      cases i with
      | zero =>
          rw [List.getElem?_cons_zero] at h
          obtain rfl := (Option.some.injEq _ _).mp h
          refine ⟨?_, ?_, ?_⟩
          · simp [TableQuery.whereQ]
          · have e0 : 2 * 0 + 1 = 0 + 1 := by omega
            simp only [insertLoop, e0, List.getElem?_cons_succ, List.getElem?_cons_zero]
          · exact ⟨_, _, List.getLast?_concat _⟩
      | succ i =>
          rw [List.getElem?_cons_succ] at h
          obtain ⟨hlen, htrace, hlast⟩ := ih _ i s h
          refine ⟨?_, ?_, hlast⟩
          · rw [hlen]
            simp [TableQuery.whereQ]
            omega
          · have e : 2 * (i + 1) + 1 = (2 * i + 1) + 1 + 1 := by omega
            rw [show (insertLoop exec t (r :: rs)).2.1
                  = insertRowSQL t.tableName r
                    :: TableQuery.buildQuery (TableQuery.whereQ t "id" (some "=")
                         (.num (idOrZero (exec (insertRowSQL t.tableName r)).insertId)))
                    :: (insertLoop exec
                         (TableQuery.whereQ t "id" (some "=")
                           (.num (idOrZero (exec (insertRowSQL t.tableName r)).insertId)))
                         rs).2.1 from rfl,
              e, List.getElem?_cons_succ, List.getElem?_cons_succ]
            exact htrace

/-- Claim C10: every per-row iteration of insert appends one id-equality
condition to the very same builder before running its lookup, so after a
k-row insert the condition sequence has grown by exactly k, and the i-th
lookup (0-based) runs on the accumulated builder state with exactly
initial + i + 1 conditions, the last one being an id-equality. -/
theorem C10_condition_accumulation (t : TableQuery) (exec : String → ExecResult)
    (rows : List Row) :
    ((insertLoop exec t rows).1).conditions.length
        = t.conditions.length + rows.length
    ∧ ∀ i s, (lookupStates exec t rows)[i]? = some s →
        s.conditions.length = t.conditions.length + (i + 1)
        ∧ ((insertLoop exec t rows).2.1)[2 * i + 1]? = some (TableQuery.buildQuery s)
        ∧ (∃ v ty, s.conditions.getLast? = some (.simple "id" "=" (.num v) ty)) :=
  ⟨insertLoop_final_conditions exec rows t,
   fun i s h => lookupStates_spec exec rows t i s h⟩

/-- A concrete executor, payload and first lookup state for the C10
witness. -/
def wExec : String → ExecResult := fun _ => { insertId := some 7 }

/-- The single-row payload of the C10 witness. -/
def wRows : List Row := [[("name", Value.str "Alice")]]

/-- The builder state of the first (and only) lookup of the C10 witness. -/
def wState : TableQuery :=
  TableQuery.whereQ (TableQuery.init "w") "id" (some "=") (.num 7)

/-- Witness for C10 at a one-row insert with generated identifier 7. -/
theorem C10_condition_accumulation_witness :
    wState.conditions.length = (TableQuery.init "w").conditions.length + (0 + 1)
    ∧ ((insertLoop wExec (TableQuery.init "w") wRows).2.1)[2 * 0 + 1]?
        = some (TableQuery.buildQuery wState)
    ∧ (∃ v ty, wState.conditions.getLast? = some (.simple "id" "=" (.num v) ty)) :=
  (C10_condition_accumulation (TableQuery.init "w") wExec wRows).2 0 wState rfl
